import Mathlib

/-!
Shallow embedding of `src/accessisky/api/viewing.py` (AccessiSky).

Python floats are idealized as real numbers.  One Python arithmetic step
can leave the reals: a negative float raised to a fractional power (the
`normalized ** 0.7` in `get_moon_interference`) produces a `complex`
value in Python 3, and the later `round(total)` then raises `TypeError`.
We track that possibility with `Option`: `none` marks a run in which the
intermediate value has become complex, so the function raises instead of
returning.  Everywhere else the translation is direct.
-/

set_option maxHeartbeats 1000000

/-- Model of the Python built-in `round` on floats with no `ndigits`
argument: round to the nearest integer, ties going to the even integer
(round half to even). -/
noncomputable def pyRound (x : ℝ) : ℤ :=
  if Int.fract x < 1 / 2 then ⌊x⌋
  else if 1 / 2 < Int.fract x then ⌊x⌋ + 1
  else if ⌊x⌋ % 2 = 0 then ⌊x⌋ else ⌊x⌋ + 1

/-- Python enum `CloudCover` — cloud cover categories. -/
inductive CloudCover where
  | CLEAR
  | PARTLY_CLOUDY
  | MOSTLY_CLOUDY
  | OVERCAST

deriving instance DecidableEq, Repr for CloudCover

/-- The `value` strings of the `CloudCover` enum members. -/
def CloudCover.value : CloudCover → String
  | .CLEAR => "Clear skies"
  | .PARTLY_CLOUDY => "Partly cloudy"
  | .MOSTLY_CLOUDY => "Mostly cloudy"
  | .OVERCAST => "Overcast"

/-- Method `CloudCover.from_percent`: create CloudCover from percentage. -/
noncomputable def CloudCover.from_percent (percent : ℝ) : CloudCover :=
  if percent < 25 then .CLEAR
  else if percent < 50 then .PARTLY_CLOUDY
  else if percent < 75 then .MOSTLY_CLOUDY
  else .OVERCAST

/-- Python enum `ViewingScore` — overall viewing score categories. -/
inductive ViewingScore where
  | EXCELLENT
  | GOOD
  | FAIR
  | POOR
  | NOT_RECOMMENDED

deriving instance DecidableEq, Repr for ViewingScore

/-- The `value` strings of the `ViewingScore` enum members. -/
def ViewingScore.value : ViewingScore → String
  | .EXCELLENT => "Excellent"
  | .GOOD => "Good"
  | .FAIR => "Fair"
  | .POOR => "Poor"
  | .NOT_RECOMMENDED => "Not Recommended"

/-- Method `ViewingScore.from_value`: create ViewingScore from numeric value (0-100). -/
noncomputable def ViewingScore.from_value (value : ℝ) : ViewingScore :=
  if value ≥ 80 then .EXCELLENT
  else if value ≥ 60 then .GOOD
  else if value ≥ 40 then .FAIR
  else if value ≥ 20 then .POOR
  else .NOT_RECOMMENDED

/-- Python dataclass `ViewingConditions` — complete viewing conditions assessment. -/
structure ViewingConditions where
  score : ViewingScore
  numeric_score : ℤ
  cloud_cover : CloudCover
  moon_illumination_percent : ℤ
  is_dark_sky : Bool
  summary : String
  recommendations : List String := []
  bortle_scale : Option ℤ := none
  transparency : Option String := none
  seeing : Option String := none

/-- Function `get_moon_interference`: moon interference factor (0.0 to 1.0).
If the moon is down the interference is `0.0`; otherwise it is
`(illumination_percent / 100) ** 0.7`.  For a negative argument the Python
`**` with the fractional exponent `0.7` returns a `complex` number, which
we mark with `none` (any later `round` of a value built from it raises). -/
noncomputable def get_moon_interference (illumination_percent : ℝ)
    (is_moon_up : Bool) : Option ℝ :=
  if is_moon_up = false then some 0
  else if illumination_percent / 100 < 0 then none
  else some ((illumination_percent / 100) ^ (0.7 : ℝ))

/-- Function `calculate_viewing_score`: overall viewing score (0-100), the weighted
combination `cloud*0.50 + moon*0.25 + darkness*0.15 + light_pollution*0.10`
rounded with Python `round`.  `none` models the `TypeError` raised by
`round` when the moon term is complex (negative illumination, moon up). -/
noncomputable def calculate_viewing_score (cloud_cover_percent : ℝ)
    (moon_illumination_percent : ℝ) (is_astronomical_night : Bool)
    (is_moon_up : Bool) (light_pollution_factor : ℝ) : Option ℤ :=
  let cloud_score : ℝ := 100 - cloud_cover_percent
  match get_moon_interference moon_illumination_percent is_moon_up with
  | none => none
  | some moon_interference =>
    let moon_score : ℝ := 100 * (1 - moon_interference)
    let darkness_score : ℝ := if is_astronomical_night then 100 else 40
    let lp_score : ℝ := 100 * (1 - light_pollution_factor)
    some (pyRound (cloud_score * 0.50 + moon_score * 0.25 +
      darkness_score * 0.15 + lp_score * 0.10))

/-- First branch group of `_generate_recommendations`: cloud recommendations. -/
noncomputable def cloudRecs (cloud_cover_percent : ℝ) : List String :=
  if cloud_cover_percent > 75 then
    ["Heavy cloud cover - wait for clearer skies"]
  else if cloud_cover_percent > 50 then
    ["Significant clouds - viewing may be intermittent"]
  else if cloud_cover_percent > 25 then
    ["Some clouds - find gaps for observing"]
  else []

/-- Second branch group of `_generate_recommendations`: moon recommendations. -/
noncomputable def moonRecs (moon_illumination_percent : ℝ)
    (is_moon_up : Bool) : List String :=
  if moon_illumination_percent > 80 ∧ is_moon_up = true then
    ["Bright moon - best for planets and the Moon itself"]
  else if moon_illumination_percent > 50 ∧ is_moon_up = true then
    ["Moon is up - deep sky objects may be washed out"]
  else if moon_illumination_percent < 20 then
    ["Dark moon - great for galaxies and nebulae"]
  else []

/-- Third branch group of `_generate_recommendations`: darkness recommendation. -/
def darknessRecs (is_astronomical_night : Bool) : List String :=
  if is_astronomical_night then [] else ["Not fully dark - brighter objects only"]

/-- Fourth branch group of `_generate_recommendations`: positive reinforcement
for good conditions. -/
noncomputable def bonusRecs (cloud_cover_percent : ℝ)
    (moon_illumination_percent : ℝ) : List String :=
  if cloud_cover_percent < 20 ∧ moon_illumination_percent < 30 then
    ["Excellent for deep sky observing!"]
  else []

/-- Function `_generate_recommendations`: viewing recommendations, appended in the
fixed order cloud group, moon group, darkness group, positive group. -/
noncomputable def _generate_recommendations (cloud_cover_percent : ℝ)
    (moon_illumination_percent : ℝ) (is_astronomical_night : Bool)
    (is_moon_up : Bool) : List String :=
  cloudRecs cloud_cover_percent ++
    moonRecs moon_illumination_percent is_moon_up ++
    darknessRecs is_astronomical_night ++
    bonusRecs cloud_cover_percent moon_illumination_percent

/-- Dictionary `summaries` used by `_generate_summary`. -/
def summaries : ViewingScore → String
  | .EXCELLENT => "Outstanding stargazing conditions"
  | .GOOD => "Good conditions for astronomy"
  | .FAIR => "Acceptable viewing with some limitations"
  | .POOR => "Challenging conditions for observing"
  | .NOT_RECOMMENDED => "Not suitable for stargazing"

/-- Function `_generate_summary`: summary description from score and cloud category. -/
def _generate_summary (score : ViewingScore) (cloud_cover : CloudCover) : String :=
  let base := summaries score
  if cloud_cover = CloudCover.OVERCAST then
    "Overcast skies - wait for better conditions"
  else if cloud_cover = CloudCover.MOSTLY_CLOUDY then
    base ++ " - clouds may interfere"
  else base

/-- Function `get_viewing_conditions`: complete viewing conditions assessment.
`none` propagates the error raised inside `calculate_viewing_score`. -/
noncomputable def get_viewing_conditions (cloud_cover_percent : ℝ)
    (moon_illumination_percent : ℝ) (is_astronomical_night : Bool)
    (is_moon_up : Bool) (light_pollution_factor : ℝ) :
    Option ViewingConditions :=
  match calculate_viewing_score cloud_cover_percent moon_illumination_percent
      is_astronomical_night is_moon_up light_pollution_factor with
  | none => none
  | some numeric_score =>
    let score := ViewingScore.from_value (numeric_score : ℝ)
    let cloud_cover := CloudCover.from_percent cloud_cover_percent
    some
      { score := score
        numeric_score := numeric_score
        cloud_cover := cloud_cover
        moon_illumination_percent := pyRound moon_illumination_percent
        is_dark_sky := is_astronomical_night &&
          decide (light_pollution_factor < 0.3)
        summary := _generate_summary score cloud_cover
        recommendations := _generate_recommendations cloud_cover_percent
          moon_illumination_percent is_astronomical_night is_moon_up }

/-! ### Helper lemmas about `pyRound` -/

/-- Applying `pyRound` to an integer gives that integer. -/
theorem pyRound_intCast (n : ℤ) : pyRound (n : ℝ) = n := by
  simp [pyRound, Int.fract_intCast, Int.floor_intCast]

/-- The value `pyRound x` is at least `⌊x⌋`. -/
theorem floor_le_pyRound (x : ℝ) : ⌊x⌋ ≤ pyRound x := by
  unfold pyRound
  split_ifs <;> omega

/-- The value `pyRound x` is at most `⌊x⌋ + 1`. -/
theorem pyRound_le_floor_add_one (x : ℝ) : pyRound x ≤ ⌊x⌋ + 1 := by
  unfold pyRound
  split_ifs <;> omega

/-- Any integer lower bound of `x` bounds `pyRound x` below. -/
theorem le_pyRound_of_le {k : ℤ} {x : ℝ} (h : (k : ℝ) ≤ x) : k ≤ pyRound x :=
  le_trans (Int.le_floor.mpr h) (floor_le_pyRound x)

/-- Any integer upper bound of `x` bounds `pyRound x` above. -/
theorem pyRound_le_of_le {k : ℤ} {x : ℝ} (h : x ≤ (k : ℝ)) : pyRound x ≤ k := by
  have hfl : ⌊x⌋ ≤ k := by
    have := Int.floor_le_floor h
    simpa [Int.floor_intCast] using this
  unfold pyRound
  split_ifs with h1 h2 h3
  · exact hfl
  · -- here `1/2 < Int.fract x`, so `x` is not an integer and `⌊x⌋ < k`
    have hx : (⌊x⌋ : ℝ) + Int.fract x = x := Int.floor_add_fract x
    have : (⌊x⌋ : ℝ) < (k : ℝ) := by linarith
    have : ⌊x⌋ < k := by exact_mod_cast this
    omega
  · exact hfl
  · have hx : (⌊x⌋ : ℝ) + Int.fract x = x := Int.floor_add_fract x
    have h2' : (1 : ℝ) / 2 ≤ Int.fract x := le_of_not_lt h1
    have : (⌊x⌋ : ℝ) < (k : ℝ) := by linarith
    have : ⌊x⌋ < k := by exact_mod_cast this
    omega

/-- Monotonicity of `pyRound`. -/
theorem pyRound_mono {x y : ℝ} (h : x ≤ y) : pyRound x ≤ pyRound y := by
  have hfl : ⌊x⌋ ≤ ⌊y⌋ := Int.floor_le_floor h
  rcases lt_or_eq_of_le hfl with hlt | heq
  · calc pyRound x ≤ ⌊x⌋ + 1 := pyRound_le_floor_add_one x
      _ ≤ ⌊y⌋ := by omega
      _ ≤ pyRound y := floor_le_pyRound y
  · have hx : (⌊x⌋ : ℝ) + Int.fract x = x := Int.floor_add_fract x
    have hy : (⌊y⌋ : ℝ) + Int.fract y = y := Int.floor_add_fract y
    have hfr : Int.fract x ≤ Int.fract y := by
      rw [heq] at hx; linarith
    unfold pyRound
    rw [heq]
    split_ifs <;> first | omega | linarith

/-- Applying `pyRound` to a natural number cast gives that number. -/
theorem pyRound_natCast (n : ℕ) : pyRound (n : ℝ) = n := by
  exact_mod_cast pyRound_intCast (n : ℤ)

/-! ### Evaluation lemmas for `calculate_viewing_score` -/

/-- With the moon up and a nonnegative illumination, the score is defined
and equals the rounded weighted sum with moon term `(m/100) ^ 0.7`. -/
theorem calculate_eq_up (c m : ℝ) (n : Bool) (l : ℝ) (hm : 0 ≤ m) :
    calculate_viewing_score c m n true l =
      some (pyRound ((100 - c) * 0.50 +
        (100 * (1 - (m / 100) ^ (0.7 : ℝ))) * 0.25 +
        (if n then (100 : ℝ) else 40) * 0.15 + (100 * (1 - l)) * 0.10)) := by
  have hm' : ¬ (m / 100 < 0) := not_lt.mpr (by positivity)
  simp [calculate_viewing_score, get_moon_interference, hm']

/-- With the moon down the score is defined and the moon interference is 0. -/
theorem calculate_eq_down (c m : ℝ) (n : Bool) (l : ℝ) :
    calculate_viewing_score c m n false l =
      some (pyRound ((100 - c) * 0.50 + (100 * (1 - (0 : ℝ))) * 0.25 +
        (if n then (100 : ℝ) else 40) * 0.15 + (100 * (1 - l)) * 0.10)) := by
  simp [calculate_viewing_score, get_moon_interference]

/-- With the moon up and a negative illumination, the computation fails
(Python: complex power, then `round` raises `TypeError`). -/
theorem calculate_eq_none (c m : ℝ) (n : Bool) (l : ℝ) (hm : m / 100 < 0) :
    calculate_viewing_score c m n true l = none := by
  simp [calculate_viewing_score, get_moon_interference, hm]

/-! ### Claim C1 -/

/-- C1: the function `calculate_viewing_score` computes
`round(0.50*(100 - cloud) + 0.25*(100*(1 - moon_interference)) +
0.15*(100 if night else 40) + 0.10*(100*(1 - light_pollution)))`,
where the moon interference is `(moon/100)^0.7` if the moon is up and `0`
otherwise; in particular the input `(0, 0, true, true, 0)` yields exactly
`100` and `(100, 100, false, true, 1)` yields exactly `6`. -/
theorem C1_score_formula :
    (∀ (c m : ℝ) (n u : Bool) (l : ℝ), (u = true → 0 ≤ m) →
      calculate_viewing_score c m n u l =
        some (pyRound (0.50 * (100 - c) +
          0.25 * (100 * (1 - (if u = true then (m / 100) ^ (0.7 : ℝ) else 0))) +
          0.15 * (if n = true then (100 : ℝ) else 40) +
          0.10 * (100 * (1 - l))))) ∧
    calculate_viewing_score 0 0 true true 0 = some 100 ∧
    calculate_viewing_score 100 100 false true 1 = some 6 := by
  refine ⟨?_, ?_, ?_⟩
  · intro c m n u l hm
    cases u with
    | false =>
      rw [calculate_eq_down]
      congr 1
      simp only [Bool.false_eq_true, if_false]
      ring_nf
    | true =>
      rw [calculate_eq_up c m n l (hm rfl)]
      congr 1
      rw [if_pos rfl]
      ring_nf
  · rw [calculate_eq_up 0 0 true 0 le_rfl]
    have h0 : ((0 : ℝ) / 100) ^ (0.7 : ℝ) = 0 := by
      rw [zero_div]
      exact Real.zero_rpow (by norm_num)
    rw [h0]
    have h100 : pyRound (100 : ℝ) = 100 := by exact_mod_cast pyRound_intCast 100
    norm_num [h100]
  · rw [calculate_eq_up 100 100 false 1 (by norm_num)]
    have h1 : ((100 : ℝ) / 100) ^ (0.7 : ℝ) = 1 := by
      norm_num
    rw [h1]
    have h6 : pyRound (6 : ℝ) = 6 := by exact_mod_cast pyRound_intCast 6
    norm_num [h6]

/-- Witness for C1: the formula applied at the concrete input
`(10, 20, true, true, 0.5)`, every hypothesis discharged there. -/
theorem C1_score_formula_witness :
    calculate_viewing_score 10 20 true true 0.5 =
      some (pyRound (0.50 * (100 - 10) +
        0.25 * (100 * (1 - ((20 : ℝ) / 100) ^ (0.7 : ℝ))) +
        0.15 * (100 : ℝ) + 0.10 * (100 * (1 - 0.5)))) := by
  exact C1_score_formula.1 10 20 true true 0.5 (fun _ => by norm_num)

/-! ### Claims C2, C3, C10 -/

/-- The moon interference term lies in `[0, 1]` for illumination in `[0, 100]`. -/
theorem interference_mem_unit {m : ℝ} (h0 : 0 ≤ m) (h1 : m ≤ 100) :
    0 ≤ (m / 100) ^ (0.7 : ℝ) ∧ (m / 100) ^ (0.7 : ℝ) ≤ 1 := by
  constructor
  · exact Real.rpow_nonneg (by positivity) _
  · exact Real.rpow_le_one (by positivity)
      ((div_le_one (by norm_num)).mpr h1) (by norm_num)

/-- The darkness sub-score is `40` or `100`. -/
theorem darkness_mem {n : Bool} :
    (40 : ℝ) ≤ (if n = true then (100 : ℝ) else 40) ∧
      (if n = true then (100 : ℝ) else 40) ≤ 100 := by
  split_ifs <;> norm_num

/-- C2: for cloud cover in [0,100], moon illumination in [0,100] and light
pollution in [0,1] (booleans arbitrary), `calculate_viewing_score` returns
an integer `s` with `0 ≤ s ≤ 100`. -/
theorem C2_score_in_range :
    ∀ (c m : ℝ) (n u : Bool) (l : ℝ),
      0 ≤ c → c ≤ 100 → 0 ≤ m → m ≤ 100 → 0 ≤ l → l ≤ 1 →
      ∃ s : ℤ, calculate_viewing_score c m n u l = some s ∧ 0 ≤ s ∧ s ≤ 100 := by
  intro c m n u l hc0 hc1 hm0 hm1 hl0 hl1
  obtain ⟨hd0, hd1⟩ := darkness_mem (n := n)
  cases u with
  | false =>
    refine ⟨_, calculate_eq_down c m n l, ?_, ?_⟩
    · exact le_pyRound_of_le (k := 0) (by push_cast; linarith)
    · exact pyRound_le_of_le (k := 100) (by push_cast; linarith)
  | true =>
    obtain ⟨hi0, hi1⟩ := interference_mem_unit hm0 hm1
    refine ⟨_, calculate_eq_up c m n l hm0, ?_, ?_⟩
    · exact le_pyRound_of_le (k := 0) (by push_cast; nlinarith)
    · exact pyRound_le_of_le (k := 100) (by push_cast; nlinarith)

/-- Witness for C2 at the concrete input `(50, 50, true, true, 0.5)`. -/
theorem C2_score_in_range_witness :
    ∃ s : ℤ, calculate_viewing_score 50 50 true true 0.5 = some s ∧
      0 ≤ s ∧ s ≤ 100 :=
  C2_score_in_range 50 50 true true 0.5 (by norm_num) (by norm_num)
    (by norm_num) (by norm_num) (by norm_num) (by norm_num)

/-- C3: the function `get_moon_interference` equals `(illum/100)^0.7` when the moon is up
(on nonnegative illumination) and `0` when the moon is down; in particular
it is `1.0` at illumination 100 (moon up), `0.0` at illumination 0 (moon
up), and `0.0` for every illumination with the moon down, so with the moon
down the moon sub-score `100*(1 - interference)` is always `100`. -/
theorem C3_moon_interference :
    (∀ m : ℝ, 0 ≤ m →
      get_moon_interference m true = some ((m / 100) ^ (0.7 : ℝ))) ∧
    get_moon_interference 100 true = some 1 ∧
    get_moon_interference 0 true = some 0 ∧
    (∀ m : ℝ, get_moon_interference m false = some 0) ∧
    (∀ m : ℝ, ∃ i : ℝ, get_moon_interference m false = some i ∧
      100 * (1 - i) = 100) := by
  refine ⟨?_, ?_, ?_, ?_, ?_⟩
  · intro m hm
    have hm' : ¬ (m / 100 < 0) := not_lt.mpr (by positivity)
    simp [get_moon_interference, hm']
  · have h1 : ((100 : ℝ) / 100) ^ (0.7 : ℝ) = 1 := by norm_num
    simp [get_moon_interference, h1]
  · simp only [get_moon_interference, zero_div]
    norm_num
  · intro m
    simp [get_moon_interference]
  · intro m
    exact ⟨0, by simp [get_moon_interference], by norm_num⟩

/-- Witness for C3: the moon-up formula applied at illumination `36`. -/
theorem C3_moon_interference_witness :
    get_moon_interference 36 true = some (((36 : ℝ) / 100) ^ (0.7 : ℝ)) :=
  C3_moon_interference.1 36 (by norm_num)

/-- C10 (implicit): for every input within the documented domains the score
is at least 6 — the darkness sub-score is never below 40 and carries weight
0.15, so a score of 0 is unreachable for valid inputs. -/
theorem C10_score_at_least_six :
    ∀ (c m : ℝ) (n u : Bool) (l : ℝ),
      0 ≤ c → c ≤ 100 → 0 ≤ m → m ≤ 100 → 0 ≤ l → l ≤ 1 →
      ∃ s : ℤ, calculate_viewing_score c m n u l = some s ∧ 6 ≤ s := by
  intro c m n u l hc0 hc1 hm0 hm1 hl0 hl1
  obtain ⟨hd0, hd1⟩ := darkness_mem (n := n)
  cases u with
  | false =>
    refine ⟨_, calculate_eq_down c m n l, ?_⟩
    exact le_pyRound_of_le (k := 6) (by push_cast; linarith)
  | true =>
    obtain ⟨hi0, hi1⟩ := interference_mem_unit hm0 hm1
    refine ⟨_, calculate_eq_up c m n l hm0, ?_⟩
    exact le_pyRound_of_le (k := 6) (by push_cast; nlinarith)

/-- Witness for C10 at the worst-case valid input `(100, 100, false, true, 1)`. -/
theorem C10_score_at_least_six_witness :
    ∃ s : ℤ, calculate_viewing_score 100 100 false true 1 = some s ∧ 6 ≤ s :=
  C10_score_at_least_six 100 100 false true 1 (by norm_num) (by norm_num)
    (by norm_num) (by norm_num) (by norm_num) (by norm_num)

/-! ### Claim C4 -/

/-- C4: categorization thresholds are inclusive on the lower bound of each
band: `from_value` maps 80 to EXCELLENT, 79 to GOOD, 60 to GOOD, 59 to
FAIR, 40 to FAIR, 39 to POOR, 20 to POOR, 19 to NOT_RECOMMENDED;
`from_percent` maps 25 to PARTLY_CLOUDY (not CLEAR) and 24.999 to CLEAR,
with bands `<25` CLEAR, `<50` PARTLY_CLOUDY, `<75` MOSTLY_CLOUDY, else
OVERCAST. -/
theorem C4_thresholds :
    ViewingScore.from_value 80 = .EXCELLENT ∧
    ViewingScore.from_value 79 = .GOOD ∧
    ViewingScore.from_value 60 = .GOOD ∧
    ViewingScore.from_value 59 = .FAIR ∧
    ViewingScore.from_value 40 = .FAIR ∧
    ViewingScore.from_value 39 = .POOR ∧
    ViewingScore.from_value 20 = .POOR ∧
    ViewingScore.from_value 19 = .NOT_RECOMMENDED ∧
    CloudCover.from_percent 25 = .PARTLY_CLOUDY ∧
    CloudCover.from_percent 24.999 = .CLEAR ∧
    (∀ p : ℝ, p < 25 → CloudCover.from_percent p = .CLEAR) ∧
    (∀ p : ℝ, 25 ≤ p → p < 50 → CloudCover.from_percent p = .PARTLY_CLOUDY) ∧
    (∀ p : ℝ, 50 ≤ p → p < 75 → CloudCover.from_percent p = .MOSTLY_CLOUDY) ∧
    (∀ p : ℝ, 75 ≤ p → CloudCover.from_percent p = .OVERCAST) := by
  refine ⟨?_, ?_, ?_, ?_, ?_, ?_, ?_, ?_, ?_, ?_, ?_, ?_, ?_, ?_⟩
  · norm_num [ViewingScore.from_value]
  · norm_num [ViewingScore.from_value]
  · norm_num [ViewingScore.from_value]
  · norm_num [ViewingScore.from_value]
  · norm_num [ViewingScore.from_value]
  · norm_num [ViewingScore.from_value]
  · norm_num [ViewingScore.from_value]
  · norm_num [ViewingScore.from_value]
  · norm_num [CloudCover.from_percent]
  · norm_num [CloudCover.from_percent]
  · intro p h
    rw [CloudCover.from_percent, if_pos h]
  · intro p h1 h2
    rw [CloudCover.from_percent, if_neg (not_lt.mpr h1), if_pos h2]
  · intro p h1 h2
    rw [CloudCover.from_percent, if_neg (not_lt.mpr (by linarith)),
      if_neg (not_lt.mpr h1), if_pos h2]
  · intro p h1
    rw [CloudCover.from_percent, if_neg (not_lt.mpr (by linarith)),
      if_neg (not_lt.mpr (by linarith)), if_neg (not_lt.mpr h1)]

/-- Witness for C4: the CLEAR band applied at the concrete percentage `10`. -/
theorem C4_thresholds_witness : CloudCover.from_percent 10 = .CLEAR :=
  C4_thresholds.2.2.2.2.2.2.2.2.2.2.1 10 (by norm_num)

/-! ### Claim C5 -/

/-- C5: the score is antitone in cloud cover (other inputs fixed) and, with
the moon up, antitone in moon illumination on `[0, 100]`: whenever both
runs return a score, the run with the larger cloud cover (resp. larger
illumination) never returns a larger score. -/
theorem C5_antitone :
    (∀ (c c' m : ℝ) (n u : Bool) (l : ℝ) (s s' : ℤ),
      c ≤ c' →
      calculate_viewing_score c m n u l = some s →
      calculate_viewing_score c' m n u l = some s' →
      s' ≤ s) ∧
    (∀ (c m m' : ℝ) (n : Bool) (l : ℝ) (s s' : ℤ),
      0 ≤ m → m ≤ m' → m' ≤ 100 →
      calculate_viewing_score c m n true l = some s →
      calculate_viewing_score c m' n true l = some s' →
      s' ≤ s) := by
  constructor
  · intro c c' m n u l s s' hcc h1 h2
    cases u with
    | false =>
      rw [calculate_eq_down, Option.some_inj] at h1 h2
      rw [← h1, ← h2]
      exact pyRound_mono (by nlinarith)
    | true =>
      rcases lt_or_le m 0 with hm | hm
      · rw [calculate_eq_none c m n l (div_neg_of_neg_of_pos hm (by norm_num))] at h1
        exact absurd h1 (by simp)
      · rw [calculate_eq_up c m n l hm, Option.some_inj] at h1
        rw [calculate_eq_up c' m n l hm, Option.some_inj] at h2
        rw [← h1, ← h2]
        exact pyRound_mono (by nlinarith)
  · intro c m m' n l s s' hm0 hmm hm1 h1 h2
    have hm0' : 0 ≤ m' := le_trans hm0 hmm
    rw [calculate_eq_up c m n l hm0, Option.some_inj] at h1
    rw [calculate_eq_up c m' n l hm0', Option.some_inj] at h2
    rw [← h1, ← h2]
    have hi : (m / 100) ^ (0.7 : ℝ) ≤ (m' / 100) ^ (0.7 : ℝ) :=
      Real.rpow_le_rpow (by positivity) (by linarith) (by norm_num)
    exact pyRound_mono (by nlinarith)

/-- Evaluation of the score at `(10, 0, true, false, 0)`. -/
theorem calc_down_at_10 : calculate_viewing_score 10 0 true false 0 = some 95 := by
  rw [calculate_eq_down]
  have h : pyRound (95 : ℝ) = 95 := by exact_mod_cast pyRound_intCast 95
  norm_num [h]

/-- Evaluation of the score at `(20, 0, true, false, 0)`. -/
theorem calc_down_at_20 : calculate_viewing_score 20 0 true false 0 = some 90 := by
  rw [calculate_eq_down]
  have h : pyRound (90 : ℝ) = 90 := by exact_mod_cast pyRound_intCast 90
  norm_num [h]

/-- Witness for C5: cloud antitonicity applied at cloud covers 10 and 20
with the other inputs fixed at `(0, true, false, 0)`. -/
theorem C5_antitone_witness :
    calculate_viewing_score 10 0 true false 0 = some 95 ∧
    calculate_viewing_score 20 0 true false 0 = some 90 ∧
    (90 : ℤ) ≤ 95 :=
  ⟨calc_down_at_10, calc_down_at_20,
    C5_antitone.1 10 20 0 true false 0 95 90 (by norm_num)
      calc_down_at_10 calc_down_at_20⟩

/-! ### Claims C6 and C8 -/

/-- At most one cloud recommendation fires. -/
theorem cloudRecs_length_le (c : ℝ) : (cloudRecs c).length ≤ 1 := by
  unfold cloudRecs
  split_ifs <;> simp

/-- At most one moon recommendation fires. -/
theorem moonRecs_length_le (m : ℝ) (u : Bool) : (moonRecs m u).length ≤ 1 := by
  unfold moonRecs
  split_ifs <;> simp

/-- At most one darkness recommendation fires. -/
theorem darknessRecs_length_le (n : Bool) : (darknessRecs n).length ≤ 1 := by
  unfold darknessRecs
  split_ifs <;> simp

/-- At most one positive recommendation fires. -/
theorem bonusRecs_length_le (c m : ℝ) : (bonusRecs c m).length ≤ 1 := by
  unfold bonusRecs
  split_ifs <;> simp

/-- The cloud-warning group (needs cloud > 25) and the positive deep-sky
group (needs cloud < 20) can never fire together. -/
theorem cloud_bonus_exclusive (c m : ℝ) : cloudRecs c = [] ∨ bonusRecs c m = [] := by
  rcases le_or_lt c 25 with h | h
  · left
    unfold cloudRecs
    rw [if_neg (by linarith), if_neg (by linarith), if_neg (by linarith)]
  · right
    unfold bonusRecs
    rw [if_neg]
    rintro ⟨h1, -⟩
    linarith

/-- The recommendations list never exceeds 3 entries. -/
theorem recs_length_le_three (c m : ℝ) (n u : Bool) :
    (_generate_recommendations c m n u).length ≤ 3 := by
  have h1 := cloudRecs_length_le c
  have h2 := moonRecs_length_le m u
  have h3 := darknessRecs_length_le n
  have h4 := bonusRecs_length_le c m
  unfold _generate_recommendations
  rcases cloud_bonus_exclusive c m with h | h <;>
    simp only [h, List.append_nil, List.nil_append, List.length_append] <;>
    omega

/-- C6: recommendations are appended in the fixed order cloud group, moon
group, darkness group, positive group, each group contributing at most one
entry and depending only on its own inputs; for `(80, 90, false, true)` the
list is exactly [heavy-cloud warning, bright-moon note, not-fully-dark
note] in that order. -/
theorem C6_recommendation_order :
    _generate_recommendations 80 90 false true =
      ["Heavy cloud cover - wait for clearer skies",
       "Bright moon - best for planets and the Moon itself",
       "Not fully dark - brighter objects only"] ∧
    (∀ (c m : ℝ) (n u : Bool),
      _generate_recommendations c m n u =
        cloudRecs c ++ moonRecs m u ++ darknessRecs n ++ bonusRecs c m ∧
      (cloudRecs c).length ≤ 1 ∧ (moonRecs m u).length ≤ 1 ∧
      (darknessRecs n).length ≤ 1 ∧ (bonusRecs c m).length ≤ 1) := by
  constructor
  · norm_num [_generate_recommendations, cloudRecs, moonRecs,
      darknessRecs, bonusRecs]
  · intro c m n u
    exact ⟨rfl, cloudRecs_length_le c, moonRecs_length_le m u,
      darknessRecs_length_le n, bonusRecs_length_le c m⟩

/-- C8 counterexample: no input produces 4 recommendations — the claim that
every count up to 4 is attained is false, since the cloud-warning group and
the positive deep-sky group are mutually exclusive. -/
theorem C8_no_four_recommendations :
    ¬ ∃ (c m : ℝ) (n u : Bool),
        (_generate_recommendations c m n u).length = 4 := by
  rintro ⟨c, m, n, u, h⟩
  have := recs_length_le_three c m n u
  omega

/-- C8 amended: the recommendations list always has between 0 and 3
entries, and each count 0, 1, 2 and 3 is attained by some input. -/
theorem C8_length_range :
    (∀ (c m : ℝ) (n u : Bool),
      (_generate_recommendations c m n u).length ≤ 3) ∧
    (_generate_recommendations 25 30 true false).length = 0 ∧
    (_generate_recommendations 25 30 false false).length = 1 ∧
    (_generate_recommendations 25 10 false false).length = 2 ∧
    (_generate_recommendations 10 10 false false).length = 3 := by
  refine ⟨recs_length_le_three, ?_, ?_, ?_, ?_⟩ <;>
    norm_num [_generate_recommendations, cloudRecs, moonRecs,
      darknessRecs, bonusRecs]

/-! ### Claims C7 and C9 -/

/-- C7: every `ViewingConditions` value returned by `get_viewing_conditions`
is internally consistent: its score category is the threshold function of
its `numeric_score`, its `cloud_cover` is the threshold function of the
input cloud percentage, its `moon_illumination_percent` is the rounded
input illumination, and `is_dark_sky` holds only when the night flag holds
and the light pollution factor is below 0.3. -/
theorem C7_consistency :
    ∀ (c m : ℝ) (n u : Bool) (l : ℝ) (vc : ViewingConditions),
      get_viewing_conditions c m n u l = some vc →
      vc.score = ViewingScore.from_value (vc.numeric_score : ℝ) ∧
      vc.cloud_cover = CloudCover.from_percent c ∧
      vc.moon_illumination_percent = pyRound m ∧
      (vc.is_dark_sky = true → n = true ∧ l < 0.3) := by
  intro c m n u l vc h
  unfold get_viewing_conditions at h
  cases hcalc : calculate_viewing_score c m n u l with
  | none =>
    rw [hcalc] at h
    exact absurd h (by simp)
  | some s =>
    rw [hcalc] at h
    simp only [Option.some_inj] at h
    rw [← h]
    refine ⟨rfl, rfl, rfl, ?_⟩
    intro hd
    simp only [Bool.and_eq_true, decide_eq_true_eq] at hd
    exact hd

/-- The record returned by `get_viewing_conditions` at `(0, 0, true, true, 0)`. -/
def vcOrigin : ViewingConditions :=
  { score := .EXCELLENT
    numeric_score := 100
    cloud_cover := .CLEAR
    moon_illumination_percent := 0
    is_dark_sky := true
    summary := "Outstanding stargazing conditions"
    recommendations := ["Dark moon - great for galaxies and nebulae",
      "Excellent for deep sky observing!"] }

/-- Evaluation of the full assessment at `(0, 0, true, true, 0)`. -/
theorem gvc_at_origin :
    get_viewing_conditions 0 0 true true 0 = some vcOrigin := by
  unfold vcOrigin
  have hcalc : calculate_viewing_score 0 0 true true 0 = some 100 := by
    rw [calculate_eq_up 0 0 true 0 le_rfl]
    have h0 : ((0 : ℝ) / 100) ^ (0.7 : ℝ) = 0 := by
      rw [zero_div]
      exact Real.zero_rpow (by norm_num)
    have h100 : pyRound (100 : ℝ) = 100 := by exact_mod_cast pyRound_intCast 100
    norm_num [h0, h100]
  have hr : pyRound (0 : ℝ) = 0 := by exact_mod_cast pyRound_intCast 0
  unfold get_viewing_conditions
  rw [hcalc]
  norm_num [ViewingScore.from_value, CloudCover.from_percent,
    _generate_summary, summaries, _generate_recommendations, cloudRecs,
    moonRecs, darknessRecs, bonusRecs, hr]
  rfl

/-- Witness for C7: the consistency facts at the record returned for the
concrete input `(0, 0, true, true, 0)`. -/
theorem C7_consistency_witness :
    vcOrigin.score = ViewingScore.from_value (vcOrigin.numeric_score : ℝ) ∧
    vcOrigin.cloud_cover = CloudCover.from_percent 0 ∧
    vcOrigin.moon_illumination_percent = pyRound 0 ∧
    (vcOrigin.is_dark_sky = true → true = true ∧ (0 : ℝ) < 0.3) :=
  C7_consistency 0 0 true true 0 vcOrigin gvc_at_origin

/-- C9 counterexample: with moon illumination `-50` and the moon up, both
`calculate_viewing_score` and `get_viewing_conditions` fail instead of
returning a value (Python: `(-0.5) ** 0.7` is complex, so `round` raises
`TypeError`), refuting the claim that the component cannot fail on any
well-typed numeric input. -/
theorem C9_counterexample :
    calculate_viewing_score 0 (-50) true true 0 = none ∧
    get_viewing_conditions 0 (-50) true true 0 = none := by
  have h : calculate_viewing_score 0 (-50) true true 0 = none :=
    calculate_eq_none 0 (-50) true 0 (by norm_num)
  refine ⟨h, ?_⟩
  unfold get_viewing_conditions
  rw [h]

/-- C9 amended: for every real-valued input whose moon illumination is
nonnegative whenever the moon is up (all other values arbitrary, including
out-of-domain ones), `calculate_viewing_score` and `get_viewing_conditions`
complete and return a value, out-of-range values propagating
arithmetically. -/
theorem C9_no_failure :
    ∀ (c m : ℝ) (n u : Bool) (l : ℝ), (u = true → 0 ≤ m) →
      (∃ s : ℤ, calculate_viewing_score c m n u l = some s) ∧
      (∃ vc : ViewingConditions, get_viewing_conditions c m n u l = some vc) := by
  intro c m n u l hm
  cases u with
  | false =>
    refine ⟨⟨_, calculate_eq_down c m n l⟩, ?_⟩
    unfold get_viewing_conditions
    rw [calculate_eq_down]
    exact ⟨_, rfl⟩
  | true =>
    refine ⟨⟨_, calculate_eq_up c m n l (hm rfl)⟩, ?_⟩
    unfold get_viewing_conditions
    rw [calculate_eq_up c m n l (hm rfl)]
    exact ⟨_, rfl⟩

/-- Witness for the amended C9 at the out-of-domain concrete input
`(cloud = 150, moon = -7 with the moon down, light pollution = 1.5)`. -/
theorem C9_no_failure_witness :
    (∃ s : ℤ, calculate_viewing_score 150 (-7) true false 1.5 = some s) ∧
    (∃ vc : ViewingConditions,
      get_viewing_conditions 150 (-7) true false 1.5 = some vc) :=
  C9_no_failure 150 (-7) true false 1.5 (fun h => by simp at h)
